import Mathlib

/-
  Shallow embedding of the PolyU-Video-Agent frontend logic.

  The repository is a React/TypeScript single-page application; the pieces
  embedded here are the pure state transitions performed by its event
  handlers and effects, with the network modelled explicitly: each handler
  is a function from its captured props/state and the outcome of its fetch
  to the resulting component state together with the list of HTTP requests
  it issued.  JavaScript-specific behaviour (truthiness of strings,
  `JSON.parse` throwing, the stale closure over `messages` inside
  `handleSend`) is reproduced where it matters.
-/

namespace VideoAgent

/-- JSON values, as produced by the browser's JSON.parse. -/
inductive Json where
  | null
  | bool (b : Bool)
  | num (q : Rat)
  | str (s : String)
  | arr (elems : List Json)
  | obj (fields : List (String × Json))

/-- ThinkingPanel.tsx MessageHttpResponse: the wire form of a stored message;
`thinking_process` is an optional JSON-encoded string. -/
structure MessageHttpResponse where
  id : String
  sender : String
  content : String
  thinking_process : Option String := none
  timestamp : String

/-- ThinkingPanel.tsx Message.  The source declares
`thinkingProcess? : ThinkingProcessStep[]`, but the stored value comes from an
unchecked cast (`as ThinkingProcessStep[]`) of an arbitrary parsed JSON array,
so it is modelled as a list of JSON values. -/
structure Message where
  id : String
  sender : String
  content : String
  thinkingProcess : Option (List Json) := none
  timestamp : String

/-- The `thinkingProcess` field produced by `convertHttpResponseToMessage`:
the source assigns it only when `httpResponse.thinking_process` is truthy
(in JS: present and a non-empty string), `JSON.parse` does not throw, and the
parsed value is an array; in every other case (absent field, empty string,
parse error caught by the `try`/`catch`, non-array value hitting the
`Array.isArray` guard) the field is left absent.  `jsonParse` stands for the
browser's `JSON.parse`, returning `.error` where that function would throw. -/
def parsedThinkingProcess (jsonParse : String → Except String Json) :
    Option String → Option (List Json)
  | none => none
  | some s =>
    if s = "" then none
    else
      match jsonParse s with
      | .ok (.arr elems) => some elems
      | .ok _ => none
      | .error _ => none

/-- ThinkingPanel.tsx convertHttpResponseToMessage.  The source builds the
basic mapping `{id, sender, content, timestamp}` and then conditionally sets
`thinkingProcess`; here the conditional mutation is written as the field
computation `parsedThinkingProcess`. -/
def convertHttpResponseToMessage (jsonParse : String → Except String Json)
    (httpResponse : MessageHttpResponse) : Message :=
  { id := httpResponse.id
    sender := httpResponse.sender
    content := httpResponse.content
    timestamp := httpResponse.timestamp
    thinkingProcess := parsedThinkingProcess jsonParse httpResponse.thinking_process }

/-- The JSON body ChatPanel.tsx `handleSend` receives on a successful POST.
The source annotates `thinking_process : ThinkingProcessStep[]` (already an
array on this endpoint, not a string). -/
structure BotHttpResponse where
  id : String
  user_message_id : String
  sender : String
  content : String
  timestamp : String
  thinking_process : List Json

/-- Sidebar.tsx / ChatPage ChatSession. -/
structure ChatSession where
  id : String
  title : String
  updated_at : String

/-- The HTTP requests the frontend issues, by endpoint.  `url` below renders
each to the literal URL string built in the source. -/
inductive Request where
  | getMessages (chatId : String)
  | postMessage (chatId : String) (message : String) (model_name : String)
  | deleteMessage (messageId : String)
  | deleteChat (chatId : String)
  | getVideo (videoId : String)
  | getVideoThumbnails (videoId : String)
  | getSections (videoId : String)
  | getTranscript (videoId : String)

/-- The URL each request is sent to.  ChatPanel/Sidebar/LectureSections use
`API_PREFIX = "http://127.0.0.1:8000"`; PlayGround uses relative paths. -/
def Request.url : Request → String
  | .getMessages c => "http://127.0.0.1:8000/api/chat/" ++ c ++ "/messages"
  | .postMessage c _ _ => "http://127.0.0.1:8000/api/chat/" ++ c ++ "/messages"
  | .deleteMessage m => "http://127.0.0.1:8000/api/message/" ++ m
  | .deleteChat c => "http://127.0.0.1:8000/api/chat/" ++ c
  | .getVideo v => "/api/videos/" ++ v ++ "/"
  | .getVideoThumbnails v => "/api/videos/" ++ v ++ "/thumbnails/"
  | .getSections v => "http://127.0.0.1:8000/api/videos/" ++ v ++ "/sections"
  | .getTranscript v => "http://127.0.0.1:8000/api/videos/" ++ v ++ "/transcript"

/-- The ChatPanel component state captured by `handleSend` at render time,
together with the `currentChatId`/`currentModel` props. -/
structure ChatPanelState where
  messages : List Message
  inputText : String
  isLoading : Bool
  currentChatId : Option String
  currentModel : String

/-- JS `String.prototype.trim()`: strips leading and trailing whitespace
(written by structural recursion over the character list so that concrete
inputs evaluate). -/
def jsTrim (s : String) : String :=
  String.mk (((s.data.dropWhile Char.isWhitespace).reverse.dropWhile
    Char.isWhitespace).reverse)

/-- The guard `if (!inputText.trim() || !currentChatId || isLoading) return;`
of `handleSend`.  JS falsiness: `!s` holds for the empty string, and
`!currentChatId` holds for both `null` and `""`. -/
def sendBlocked (st : ChatPanelState) : Bool :=
  jsTrim st.inputText == "" ||
    (match st.currentChatId with
     | none => true
     | some c => c == "") ||
    st.isLoading

/-- Outcome of the POST issued by `handleSend`: either the parsed response
body, or a failure (a non-ok status throwing, a network error, or a body
that fails to parse) landing in the `catch`. -/
inductive SendOutcome where
  | success (bot : BotHttpResponse)
  | failure

/-- Everything observable about one run of `handleSend`: the requests it
issued, the message list right after the optimistic `setMessages`, and the
final committed state. -/
structure HandleSendRun where
  requests : List Request
  optimisticMessages : List Message
  finalMessages : List Message
  finalInputText : String
  finalIsLoading : Bool

/-- ChatPanel.tsx handleSend.  `timestamp` is the `new Date().toLocaleString`
taken before the optimistic append, `tempSuffix` the `Date.now()` appended to
the temporary id, `responseTimestamp` the time taken when the response (or
error) arrives, `failSuffix` the `Date.now()` used for the error message id.

On success the source computes
`messages.filter(message => message.id != temp_user_message_id)` where
`messages` is the closure captured at render time, i.e. the PRE-send list
(the optimistic append went through `setMessages(prev => ...)` and is not
visible in the closure); the filter is therefore applied to `st.messages`.
On failure the source appends the error message with a functional update,
so it lands after the optimistic list. -/
def handleSend (st : ChatPanelState) (timestamp tempSuffix responseTimestamp failSuffix : String)
    (outcome : SendOutcome) : HandleSendRun :=
  if sendBlocked st then
    { requests := []
      optimisticMessages := st.messages
      finalMessages := st.messages
      finalInputText := st.inputText
      finalIsLoading := st.isLoading }
  else
    let temp_user_message_id := "FAKEID-TEMP-MESSAGE" ++ tempSuffix
    let userMessage : Message :=
      { id := temp_user_message_id
        sender := "user"
        content := st.inputText
        thinkingProcess := none
        timestamp := timestamp }
    let optimistic := st.messages ++ [userMessage]
    let request :=
      Request.postMessage (st.currentChatId.getD "") st.inputText st.currentModel
    match outcome with
    | .success botResponse =>
      let lastMessage : Message :=
        { id := botResponse.user_message_id
          sender := "user"
          content := st.inputText
          thinkingProcess := none
          timestamp := timestamp }
      let botMessage : Message :=
        { id := botResponse.id
          sender := botResponse.sender
          content := botResponse.content
          thinkingProcess := some botResponse.thinking_process
          timestamp := responseTimestamp }
      let newMessages :=
        (st.messages.filter (fun message => message.id != temp_user_message_id))
          ++ [lastMessage, botMessage]
      { requests := [request]
        optimisticMessages := optimistic
        finalMessages := newMessages
        finalInputText := ""
        finalIsLoading := false }
    | .failure =>
      let errorMessage : Message :=
        { id := "FAKEID-MESSAGE-FAILED" ++ failSuffix
          sender := "bot"
          content := "Sorry, an error occurred while processing your message."
          thinkingProcess := none
          timestamp := responseTimestamp }
      { requests := [request]
        optimisticMessages := optimistic
        finalMessages := optimistic ++ [errorMessage]
        finalInputText := ""
        finalIsLoading := false }

/-- Outcome of the GET in ChatPanel.tsx `fetchMessages`: a parsed body, a
received non-ok status (which sets `window.location.href = "/"` and throws),
or a network-level failure. -/
inductive FetchOutcome where
  | success (msgs : List MessageHttpResponse)
  | httpError (status : Nat)
  | networkError

/-- The synthetic bot message `fetchMessages` stores on failure. -/
def fetchFailureMessage (now failSuffix : String) : Message :=
  { id := "FAKEID-MESSAGE-FAILED" ++ failSuffix
    sender := "bot"
    content := "❌ Whoops! There seems to be some network issue, please try again later."
    thinkingProcess := none
    timestamp := now }

/-- Result of one run of `fetchMessages`. -/
structure FetchMessagesRun where
  requests : List Request
  messages : List Message
  redirectedHome : Bool

/-- ChatPanel.tsx fetchMessages (the effect body run when `currentChatId`
changes to a non-null value).  On success every wire message is converted
with `convertHttpResponseToMessage`; on either failure the catch stores the
single synthetic bot message. -/
def fetchMessages (jsonParse : String → Except String Json) (chatId now failSuffix : String)
    (outcome : FetchOutcome) : FetchMessagesRun :=
  match outcome with
  | .success msgs =>
    { requests := [Request.getMessages chatId]
      messages := msgs.map (convertHttpResponseToMessage jsonParse)
      redirectedHome := false }
  | .httpError _ =>
    { requests := [Request.getMessages chatId]
      messages := [fetchFailureMessage now failSuffix]
      redirectedHome := true }
  | .networkError =>
    { requests := [Request.getMessages chatId]
      messages := [fetchFailureMessage now failSuffix]
      redirectedHome := false }

/-- `setMessages(data)` / `setMessages([...])` inside `fetchMessages` replaces
the component's previous message list wholesale. -/
def fetchMessagesUpdate (_previousMessages : List Message) (run : FetchMessagesRun) :
    List Message :=
  run.messages

/-- Result of one run of `handleDeleteMessageClick`. -/
structure DeleteMessageRun where
  requests : List Request
  messages : List Message
  alerted : Option String

/-- ChatPanel.tsx handleDeleteMessageClick: always issues the DELETE naming
`messageId`; on ok filters the message out, on failure alerts. -/
def handleDeleteMessageClick (messages : List Message) (messageId : String)
    (ok : Bool) : DeleteMessageRun :=
  if ok then
    { requests := [Request.deleteMessage messageId]
      messages := messages.filter (fun msg => msg.id != messageId)
      alerted := none }
  else
    { requests := [Request.deleteMessage messageId]
      messages := messages
      alerted := some "Failed to delete message. Please try again." }

/-- Result of one run of Sidebar's `handleDeleteClick`. -/
structure DeleteChatClickRun where
  requests : List Request
  deletedCallback : Option String
  alerted : Option String

/-- Sidebar.tsx handleDeleteClick: behind a `window.confirm`; on ok calls the
parent `onDeleteChat(chatId)`, on failure alerts. -/
def handleDeleteClick (chatId : String) (confirmed : Bool) (ok : Bool) :
    DeleteChatClickRun :=
  if confirmed then
    if ok then
      { requests := [Request.deleteChat chatId]
        deletedCallback := some chatId
        alerted := none }
    else
      { requests := [Request.deleteChat chatId]
        deletedCallback := none
        alerted := some "Failed to delete chat. Please try again." }
  else
    { requests := [], deletedCallback := none, alerted := none }

/-- The ChatPage state `handleDeleteChat` operates on. -/
structure ChatPageState where
  availableChats : List ChatSession
  currentChatId : Option String

/-- Result of ChatPage's `handleDeleteChat`. -/
structure DeleteChatResult where
  availableChats : List ChatSession
  currentChatId : Option String
  navigatedHome : Bool

/-- ChatPage handleDeleteChat: filters the chat out of the local list and,
when the deleted chat was the current one, clears the selection and
navigates to `/`. -/
def handleDeleteChat (st : ChatPageState) (chatId : String) : DeleteChatResult :=
  let chats := st.availableChats.filter (fun chat => chat.id != chatId)
  if st.currentChatId = some chatId then
    { availableChats := chats, currentChatId := none, navigatedHome := true }
  else
    { availableChats := chats, currentChatId := st.currentChatId, navigatedHome := false }

/-- PlayGround's `fetchData` effect launches two fetches at once through
`Promise.all` before awaiting either response; these are the requests in
flight for one run (the rest of the handler only stores the parsed
payloads into `videoData`). -/
def PlayGround.fetchData (videoId : String) : List Request :=
  [Request.getVideo videoId, Request.getVideoThumbnails videoId]

/-- A received HTTP response: any status (fetch resolves on 4xx/5xx too)
and a body. -/
structure HttpResponse where
  status : Nat
  body : String

/-- LectureSections.tsx Section.  The interface comments
`begin_time: number; // in seconds`. -/
structure Section where
  id : Int
  begin_time : Rat
  text : String

/-- LectureSections component state. -/
structure LectureSectionsState where
  sections : Option (List Section)
  loading : Bool

/-- Result of one run of `fetchSections`. -/
structure FetchSectionsRun where
  requests : List Request
  state : LectureSectionsState

/-- The hardcoded mock list `fetchSections` always stores. -/
def sectionsMockData : List Section :=
  [ { id := 1, begin_time := 0, text := "Introduction to the lecture and overview of topics." }
  , { id := 2, begin_time := 300, text := "Deep dive into the first topic with examples." }
  , { id := 3, begin_time := 900, text := "Discussion on advanced concepts and applications." }
  , { id := 4, begin_time := 1500, text := "Summary and conclusion of the lecture." } ]

/-- LectureSections.tsx fetchSections.  The response-ok check and the body
parse are commented out in the source; once a response arrives (any status),
the handler stores the hardcoded list and clears `loading`.  A `videoId` of
`none` renders as the string "undefined" in the template-literal URL. -/
def fetchSections (videoId : Option String) (_response : HttpResponse) : FetchSectionsRun :=
  { requests := [Request.getSections (videoId.getD "undefined")]
    state := { sections := some sectionsMockData, loading := false } }

/-- LectureTranscripts.tsx Sentence.  The interface comments
`begin_time: number; // in milliseconds`. -/
structure Sentence where
  channel_id : Int
  sentence_id : Int
  begin_time : Rat
  end_time : Rat
  language : String
  emotion : String
  text : String

/-- The argument LectureSections passes to `handleItemClick` when a section
item is clicked: `section.begin_time / 1000`. -/
def sectionSeekTime (s : Section) : Rat :=
  s.begin_time / 1000

/-- The argument LectureTranscripts passes to `handleItemClick` when a
transcript sentence is clicked: `sentence.begin_time / 1000`. -/
def sentenceSeekTime (s : Sentence) : Rat :=
  s.begin_time / 1000

/-- C8: the sections state produced by LectureSections' fetchSections is
independent of both the videoId and the received HTTP response (any status):
any two runs store the same fixed four-element hardcoded list with loading
cleared. -/
theorem fetchSections_constant (v1 v2 : Option String) (r1 r2 : HttpResponse) :
    (fetchSections v1 r1).state = (fetchSections v2 r2).state
    ∧ (fetchSections v1 r1).state.sections = some sectionsMockData
    ∧ (fetchSections v1 r1).state.loading = false
    ∧ sectionsMockData.length = 4 :=
  ⟨rfl, rfl, rfl, rfl⟩

/-- C10: clicking a section item invokes the seek callback with
begin_time / 1000 — the same milliseconds-to-seconds conversion applied to
transcript sentences — even though the Section type declares begin_time to be
in seconds; on the hardcoded sections, whose begin_time values are 0, 300,
900 and 1500 seconds, the seek arguments are 0, 3/10, 9/10 and 3/2 seconds. -/
theorem section_click_seek_conversion :
    (∀ (s : Section) (t : Sentence), s.begin_time = t.begin_time →
        sectionSeekTime s = sentenceSeekTime t)
    ∧ (∀ s : Section, sectionSeekTime s = s.begin_time / 1000)
    ∧ sectionsMockData.map sectionSeekTime = [0, 3/10, 9/10, 3/2] := by
  refine ⟨?_, fun s => rfl, ?_⟩
  · intro s t h
    simp [sectionSeekTime, sentenceSeekTime, h]
  · norm_num [sectionsMockData, sectionSeekTime]

/-- Witness for C10 at a section and a transcript sentence sharing
begin_time 300: both seek to 3/10. -/
theorem section_click_seek_conversion_witness :
    (({ id := 2, begin_time := 300, text := "x" } : Section).begin_time
      = ({ channel_id := 0, sentence_id := 1, begin_time := 300, end_time := 400,
           language := "en", emotion := "neutral", text := "y" } : Sentence).begin_time)
    ∧ sectionSeekTime ({ id := 2, begin_time := 300, text := "x" } : Section)
      = sentenceSeekTime
          ({ channel_id := 0, sentence_id := 1, begin_time := 300, end_time := 400,
             language := "en", emotion := "neutral", text := "y" } : Sentence) :=
  ⟨rfl, section_click_seek_conversion.1 _ _ rfl⟩

/-- C5: for every MessageHttpResponse whose thinking_process is a JSON-encoded
string of an array, convertHttpResponseToMessage returns the Message whose
thinkingProcess equals the parsed ordered array, and whose id, sender,
content and timestamp equal the corresponding input fields unchanged. -/
theorem convert_parses_array_thinking_process
    (jsonParse : String → Except String Json) (r : MessageHttpResponse)
    (s : String) (elems : List Json)
    (hs : r.thinking_process = some s) (hne : s ≠ "")
    (hp : jsonParse s = .ok (Json.arr elems)) :
    convertHttpResponseToMessage jsonParse r =
      { id := r.id, sender := r.sender, content := r.content,
        thinkingProcess := some elems, timestamp := r.timestamp } := by
  simp [convertHttpResponseToMessage, parsedThinkingProcess, hs, hne, hp]

/-- Witness for C5 on a concrete response whose thinking_process parses to
the empty array. -/
theorem convert_parses_array_thinking_process_witness :
    (({ id := "m1", sender := "bot", content := "c",
        thinking_process := some "[]", timestamp := "t" } : MessageHttpResponse).thinking_process
      = some "[]")
    ∧ ("[]" : String) ≠ ""
    ∧ (fun _ => (Except.ok (Json.arr []) : Except String Json)) "[]"
        = Except.ok (Json.arr [])
    ∧ convertHttpResponseToMessage (fun _ => Except.ok (Json.arr []))
        { id := "m1", sender := "bot", content := "c",
          thinking_process := some "[]", timestamp := "t" }
      = { id := "m1", sender := "bot", content := "c",
          thinkingProcess := some [], timestamp := "t" } :=
  ⟨rfl, by decide, rfl,
   convert_parses_array_thinking_process _ _ "[]" [] rfl (by decide) rfl⟩

/-- C9: convertHttpResponseToMessage is total (it is a function into Message,
with the parse failure handled inside): it always copies id, sender, content
and timestamp unchanged, and leaves thinkingProcess absent whenever
thinking_process is absent (or the empty, hence falsy, string), fails to
parse, or parses to a non-array value. -/
theorem convert_total_fields_preserved
    (jsonParse : String → Except String Json) (r : MessageHttpResponse) :
    ((convertHttpResponseToMessage jsonParse r).id = r.id
      ∧ (convertHttpResponseToMessage jsonParse r).sender = r.sender
      ∧ (convertHttpResponseToMessage jsonParse r).content = r.content
      ∧ (convertHttpResponseToMessage jsonParse r).timestamp = r.timestamp)
    ∧ (r.thinking_process = none →
        (convertHttpResponseToMessage jsonParse r).thinkingProcess = none)
    ∧ (∀ s e, r.thinking_process = some s → jsonParse s = .error e →
        (convertHttpResponseToMessage jsonParse r).thinkingProcess = none)
    ∧ (∀ s j, r.thinking_process = some s → jsonParse s = .ok j →
        (∀ elems, j ≠ Json.arr elems) →
        (convertHttpResponseToMessage jsonParse r).thinkingProcess = none) := by
  refine ⟨⟨rfl, rfl, rfl, rfl⟩, ?_, ?_, ?_⟩
  · intro h
    simp [convertHttpResponseToMessage, parsedThinkingProcess, h]
  · intro s e hs hp
    by_cases hse : s = ""
    · simp [convertHttpResponseToMessage, parsedThinkingProcess, hs, hse]
    · simp [convertHttpResponseToMessage, parsedThinkingProcess, hs, hse, hp]
  · intro s j hs hp hj
    by_cases hse : s = ""
    · simp [convertHttpResponseToMessage, parsedThinkingProcess, hs, hse]
    · cases j with
      | arr elems => exact absurd rfl (hj elems)
      | null => simp [convertHttpResponseToMessage, parsedThinkingProcess, hs, hse, hp]
      | bool b => simp [convertHttpResponseToMessage, parsedThinkingProcess, hs, hse, hp]
      | num q => simp [convertHttpResponseToMessage, parsedThinkingProcess, hs, hse, hp]
      | str t => simp [convertHttpResponseToMessage, parsedThinkingProcess, hs, hse, hp]
      | obj fields => simp [convertHttpResponseToMessage, parsedThinkingProcess, hs, hse, hp]

/-- Witness for C9 on a concrete response whose thinking_process fails to
parse: the field stays absent and the id is copied. -/
theorem convert_total_fields_preserved_witness :
    (({ id := "m2", sender := "user", content := "c2",
        thinking_process := some "not json", timestamp := "t2" } : MessageHttpResponse).thinking_process
      = some "not json")
    ∧ (fun _ => (Except.error "bad" : Except String Json)) "not json" = Except.error "bad"
    ∧ (convertHttpResponseToMessage (fun _ => Except.error "bad")
        { id := "m2", sender := "user", content := "c2",
          thinking_process := some "not json", timestamp := "t2" }).thinkingProcess = none
    ∧ (convertHttpResponseToMessage (fun _ => Except.error "bad")
        { id := "m2", sender := "user", content := "c2",
          thinking_process := some "not json", timestamp := "t2" }).id = "m2" :=
  ⟨rfl, rfl,
   (convert_total_fields_preserved (fun _ => Except.error "bad")
      { id := "m2", sender := "user", content := "c2",
        thinking_process := some "not json", timestamp := "t2" }).2.2.1 "not json" "bad" rfl rfl,
   (convert_total_fields_preserved (fun _ => Except.error "bad")
      { id := "m2", sender := "user", content := "c2",
        thinking_process := some "not json", timestamp := "t2" }).1.1⟩

/-- C1: a send that passes the guard and whose POST succeeds first appends the
user message under the client-generated temporary id, and its final list
carries no message with that temporary id: it equals the pre-send list
extended with a user message carrying the server-assigned user_message_id
(same content and timestamp) followed by the bot response message. -/
theorem handleSend_success_reconciliation
    (st : ChatPanelState) (timestamp tempSuffix responseTimestamp failSuffix : String)
    (bot : BotHttpResponse)
    (hblock : sendBlocked st = false)
    (hfresh : ∀ m ∈ st.messages, m.id ≠ "FAKEID-TEMP-MESSAGE" ++ tempSuffix)
    (hu : bot.user_message_id ≠ "FAKEID-TEMP-MESSAGE" ++ tempSuffix)
    (hb : bot.id ≠ "FAKEID-TEMP-MESSAGE" ++ tempSuffix) :
    (handleSend st timestamp tempSuffix responseTimestamp failSuffix
        (.success bot)).optimisticMessages
      = st.messages ++
        [{ id := "FAKEID-TEMP-MESSAGE" ++ tempSuffix, sender := "user",
           content := st.inputText, thinkingProcess := none, timestamp := timestamp }]
    ∧ (handleSend st timestamp tempSuffix responseTimestamp failSuffix
        (.success bot)).finalMessages
      = st.messages ++
        [{ id := bot.user_message_id, sender := "user", content := st.inputText,
           thinkingProcess := none, timestamp := timestamp },
         { id := bot.id, sender := bot.sender, content := bot.content,
           thinkingProcess := some bot.thinking_process, timestamp := responseTimestamp }]
    ∧ ∀ m ∈ (handleSend st timestamp tempSuffix responseTimestamp failSuffix
        (.success bot)).finalMessages,
        m.id ≠ "FAKEID-TEMP-MESSAGE" ++ tempSuffix := by
  have hfilter : st.messages.filter
      (fun message => message.id != ("FAKEID-TEMP-MESSAGE" ++ tempSuffix)) = st.messages :=
    List.filter_eq_self.mpr (fun m hm => by simpa [bne_iff_ne] using hfresh m hm)
  refine ⟨?_, ?_, ?_⟩
  · simp [handleSend, hblock]
  · simp [handleSend, hblock, hfilter]
  · intro m hm
    simp only [handleSend, hblock, Bool.false_eq_true, if_false, hfilter] at hm
    simp only [List.mem_append, List.mem_cons, List.mem_singleton] at hm
    rcases hm with hm | rfl | rfl | hm
    · exact hfresh m hm
    · exact hu
    · exact hb
    · exact absurd hm (List.not_mem_nil m)

/-- Witness for C1 on an empty pre-send list and a concrete bot response:
the final list is exactly the reconciled pair of messages. -/
theorem handleSend_success_reconciliation_witness :
    sendBlocked { messages := [], inputText := "hi", isLoading := false,
                  currentChatId := some "c1", currentModel := "mod" } = false
    ∧ ("u1" : String) ≠ "FAKEID-TEMP-MESSAGE0"
    ∧ ("b1" : String) ≠ "FAKEID-TEMP-MESSAGE0"
    ∧ (handleSend
        { messages := [], inputText := "hi", isLoading := false,
          currentChatId := some "c1", currentModel := "mod" } "T" "0" "T2" "9"
        (SendOutcome.success
          { id := "b1", user_message_id := "u1", sender := "bot",
            content := "resp", timestamp := "bt", thinking_process := [] })).finalMessages
      = [{ id := "u1", sender := "user", content := "hi", thinkingProcess := none,
           timestamp := "T" },
         { id := "b1", sender := "bot", content := "resp", thinkingProcess := some [],
           timestamp := "T2" }] :=
  ⟨rfl, by decide, by decide,
   (handleSend_success_reconciliation
      { messages := [], inputText := "hi", isLoading := false,
        currentChatId := some "c1", currentModel := "mod" } "T" "0" "T2" "9"
      { id := "b1", user_message_id := "u1", sender := "bot",
        content := "resp", timestamp := "bt", thinking_process := [] }
      rfl (by simp) (by decide) (by decide)).2.1⟩

/-- C2 counterexample: at a concrete send whose POST fails, the optimistically
appended temporary-id user message is still in the final message list — the
optimistic update is not rolled back. -/
theorem handleSend_failure_no_rollback_cex :
    (handleSend
        { messages := [], inputText := "hello", isLoading := false,
          currentChatId := some "c1", currentModel := "mod" } "T" "7" "T2" "8"
        SendOutcome.failure).finalMessages.map Message.id
      = ["FAKEID-TEMP-MESSAGE7", "FAKEID-MESSAGE-FAILED8"]
    ∧ "FAKEID-TEMP-MESSAGE7" ∈ (handleSend
        { messages := [], inputText := "hello", isLoading := false,
          currentChatId := some "c1", currentModel := "mod" }
        "T" "7" "T2" "8" SendOutcome.failure).finalMessages.map Message.id := by
  exact ⟨rfl, by decide⟩

/-- C2 amended: on a send whose POST fails, the optimistic update is not
rolled back: the final list is the optimistic list (pre-send list plus the
temporary-id user message) with a synthetic bot error message appended after
it. -/
theorem handleSend_failure_appends_error
    (st : ChatPanelState) (timestamp tempSuffix responseTimestamp failSuffix : String)
    (hblock : sendBlocked st = false) :
    (handleSend st timestamp tempSuffix responseTimestamp failSuffix
        .failure).optimisticMessages
      = st.messages ++
        [{ id := "FAKEID-TEMP-MESSAGE" ++ tempSuffix, sender := "user",
           content := st.inputText, thinkingProcess := none, timestamp := timestamp }]
    ∧ (handleSend st timestamp tempSuffix responseTimestamp failSuffix
        .failure).finalMessages
      = (handleSend st timestamp tempSuffix responseTimestamp failSuffix
          .failure).optimisticMessages ++
        [{ id := "FAKEID-MESSAGE-FAILED" ++ failSuffix, sender := "bot",
           content := "Sorry, an error occurred while processing your message.",
           thinkingProcess := none, timestamp := responseTimestamp }] := by
  constructor <;> simp [handleSend, hblock]

/-- Witness for C2's amended statement on a concrete failing send. -/
theorem handleSend_failure_appends_error_witness :
    sendBlocked { messages := [], inputText := "hey", isLoading := false,
                  currentChatId := some "c2", currentModel := "mod" } = false
    ∧ (handleSend
        { messages := [], inputText := "hey", isLoading := false,
          currentChatId := some "c2", currentModel := "mod" } "T" "3" "T2" "4"
        SendOutcome.failure).finalMessages
      = (handleSend
          { messages := [], inputText := "hey", isLoading := false,
            currentChatId := some "c2", currentModel := "mod" } "T" "3" "T2" "4"
          SendOutcome.failure).optimisticMessages ++
        [{ id := "FAKEID-MESSAGE-FAILED4", sender := "bot",
           content := "Sorry, an error occurred while processing your message.",
           thinkingProcess := none, timestamp := "T2" }] :=
  ⟨rfl,
   (handleSend_failure_appends_error
      { messages := [], inputText := "hey", isLoading := false,
        currentChatId := some "c2", currentModel := "mod" } "T" "3" "T2" "4" rfl).2⟩

/-- C7: after handleDeleteChat(id), when the list holds exactly one session
with that id, the session list equals the previous list with that session
removed and the relative order of the others preserved; the selection is set
to null with navigation home exactly when the deleted id was the current one,
and is unchanged otherwise. -/
theorem handleDeleteChat_spec (l1 l2 : List ChatSession) (c : ChatSession)
    (cur : Option String)
    (h1 : ∀ x ∈ l1, x.id ≠ c.id) (h2 : ∀ x ∈ l2, x.id ≠ c.id) :
    (handleDeleteChat { availableChats := l1 ++ c :: l2, currentChatId := cur }
        c.id).availableChats = l1 ++ l2
    ∧ (handleDeleteChat { availableChats := l1 ++ c :: l2, currentChatId := cur }
        c.id).currentChatId = (if cur = some c.id then none else cur)
    ∧ ((handleDeleteChat { availableChats := l1 ++ c :: l2, currentChatId := cur }
        c.id).navigatedHome ↔ cur = some c.id) := by
  have e1 : l1.filter (fun chat => chat.id != c.id) = l1 :=
    List.filter_eq_self.mpr (fun x hx => by simpa [bne_iff_ne] using h1 x hx)
  have e2 : l2.filter (fun chat => chat.id != c.id) = l2 :=
    List.filter_eq_self.mpr (fun x hx => by simpa [bne_iff_ne] using h2 x hx)
  have hf : (l1 ++ c :: l2).filter (fun chat => chat.id != c.id) = l1 ++ l2 := by
    simp [List.filter_append, List.filter_cons, e1, e2]
  by_cases hc : cur = some c.id
  · refine ⟨?_, ?_, ?_⟩ <;> simp [handleDeleteChat, hc, hf]
  · refine ⟨?_, ?_, ?_⟩ <;> simp [handleDeleteChat, hc, hf]

/-- Witness for C7: deleting the currently selected chat "b" from the
two-element list removes it, clears the selection and navigates home. -/
theorem handleDeleteChat_spec_witness :
    (∀ x ∈ [({ id := "a", title := "ta", updated_at := "ua" } : ChatSession)],
        x.id ≠ ({ id := "b", title := "tb", updated_at := "ub" } : ChatSession).id)
    ∧ (∀ x ∈ ([] : List ChatSession),
        x.id ≠ ({ id := "b", title := "tb", updated_at := "ub" } : ChatSession).id)
    ∧ (handleDeleteChat
        { availableChats :=
            [{ id := "a", title := "ta", updated_at := "ua" }] ++
              ({ id := "b", title := "tb", updated_at := "ub" } : ChatSession) :: [],
          currentChatId := some "b" } "b").availableChats
      = [{ id := "a", title := "ta", updated_at := "ua" }]
    ∧ (handleDeleteChat
        { availableChats :=
            [{ id := "a", title := "ta", updated_at := "ua" }] ++
              ({ id := "b", title := "tb", updated_at := "ub" } : ChatSession) :: [],
          currentChatId := some "b" } "b").navigatedHome := by
  have h := handleDeleteChat_spec
    [{ id := "a", title := "ta", updated_at := "ua" }] []
    { id := "b", title := "tb", updated_at := "ub" } (some "b")
    (by decide) (by decide)
  exact ⟨by decide, by decide, h.1, h.2.2.mpr rfl⟩

/-- C4 counterexample: when the message fetch fails while the panel already
shows a message, the synthetic bot message is not appended to the message
list — `setMessages` replaces the list, so the prior message is gone. -/
theorem fetchMessages_failure_replaces_list_cex :
    let prior : List Message :=
      [{ id := "m0", sender := "user", content := "old", thinkingProcess := none,
         timestamp := "t0" }]
    fetchMessagesUpdate prior
        (fetchMessages (fun _ => Except.error "e") "c1" "N" "5" FetchOutcome.networkError)
      = [fetchFailureMessage "N" "5"]
    ∧ (fetchMessagesUpdate prior
        (fetchMessages (fun _ => Except.error "e") "c1" "N" "5"
          FetchOutcome.networkError)).length = 1
    ∧ (prior ++ [fetchFailureMessage "N" "5"]).length = 2
    ∧ (fetchMessagesUpdate prior
        (fetchMessages (fun _ => Except.error "e") "c1" "N" "5"
          FetchOutcome.networkError)).map Message.id = ["FAKEID-MESSAGE-FAILED5"] :=
  ⟨rfl, rfl, rfl, rfl⟩

/-- C4 amended: every failing request among message fetch, message send, chat
delete and message delete is caught in its own handler, issues exactly one
request (no retry), and is surfaced as a single synthetic bot message — the
whole stored list for a failed fetch, appended after the optimistic list for
a failed send — or as a browser alert for the two delete handlers. -/
theorem network_failures_surfaced_once
    (jsonParse : String → Except String Json)
    (st : ChatPanelState) (chatId mid cid now fsuf timestamp tsuf rts fl : String)
    (status : Nat)
    (hblock : sendBlocked st = false) :
    (fetchMessages jsonParse chatId now fsuf .networkError).requests.length = 1
    ∧ (fetchMessages jsonParse chatId now fsuf .networkError).messages
        = [fetchFailureMessage now fsuf]
    ∧ (fetchMessages jsonParse chatId now fsuf (.httpError status)).requests.length = 1
    ∧ (fetchMessages jsonParse chatId now fsuf (.httpError status)).messages
        = [fetchFailureMessage now fsuf]
    ∧ (fetchFailureMessage now fsuf).sender = "bot"
    ∧ (handleSend st timestamp tsuf rts fl .failure).requests.length = 1
    ∧ (handleSend st timestamp tsuf rts fl .failure).finalMessages
        = (handleSend st timestamp tsuf rts fl .failure).optimisticMessages ++
          [{ id := "FAKEID-MESSAGE-FAILED" ++ fl, sender := "bot",
             content := "Sorry, an error occurred while processing your message.",
             thinkingProcess := none, timestamp := rts }]
    ∧ (handleDeleteMessageClick st.messages mid false).requests.length = 1
    ∧ (handleDeleteMessageClick st.messages mid false).messages = st.messages
    ∧ (handleDeleteMessageClick st.messages mid false).alerted
        = some "Failed to delete message. Please try again."
    ∧ (handleDeleteClick cid true false).requests.length = 1
    ∧ (handleDeleteClick cid true false).alerted
        = some "Failed to delete chat. Please try again." := by
  refine ⟨rfl, rfl, rfl, rfl, rfl, ?_, ?_, rfl, rfl, rfl, rfl, rfl⟩
  · simp [handleSend, hblock]
  · simp [handleSend, hblock]

/-- Witness for C4's amended statement on concrete failing runs. -/
theorem network_failures_surfaced_once_witness :
    sendBlocked { messages := [], inputText := "q", isLoading := false,
                  currentChatId := some "c9", currentModel := "m" } = false
    ∧ (handleDeleteClick "c9" true false).alerted
        = some "Failed to delete chat. Please try again."
    ∧ (fetchMessages (fun _ => Except.error "e") "c9" "N" "1"
        FetchOutcome.networkError).messages = [fetchFailureMessage "N" "1"] := by
  obtain ⟨h1, h2, h3, h4, h5, h6, h7, h8, h9, h10, h11, h12⟩ :=
    network_failures_surfaced_once (fun _ => Except.error "e")
      { messages := [], inputText := "q", isLoading := false,
        currentChatId := some "c9", currentModel := "m" }
      "c9" "mid" "c9" "N" "1" "T" "2" "T2" "3" 500 rfl
  exact ⟨rfl, h12, h2⟩

/-- C6 counterexample: PlayGround's data-fetch effect launches two requests
at once (video and thumbnails, through Promise.all) for a single action. -/
theorem playGround_two_concurrent_requests_cex :
    PlayGround.fetchData "113514"
      = [Request.getVideo "113514", Request.getVideoThumbnails "113514"]
    ∧ (PlayGround.fetchData "113514").length = 2 :=
  ⟨rfl, rfl⟩

/-- C6 amended: handleSend issues no request and leaves its state unchanged
when a previous send is still in flight, the input is blank, or no chat is
selected; each ChatPanel/Sidebar handler issues at most one request per
action; but PlayGround's video-load effect issues two concurrent requests. -/
theorem send_guard_and_request_counts
    (st : ChatPanelState) (timestamp tsuf rts fl mid cid v : String)
    (outcome : SendOutcome) (ok confirmed : Bool)
    (hblock : sendBlocked st = true) :
    (handleSend st timestamp tsuf rts fl outcome).requests = []
    ∧ (handleSend st timestamp tsuf rts fl outcome).finalMessages = st.messages
    ∧ (handleSend st timestamp tsuf rts fl outcome).optimisticMessages = st.messages
    ∧ (handleSend st timestamp tsuf rts fl outcome).finalInputText = st.inputText
    ∧ (handleSend st timestamp tsuf rts fl outcome).finalIsLoading = st.isLoading
    ∧ (handleDeleteMessageClick st.messages mid ok).requests.length = 1
    ∧ (handleDeleteClick cid confirmed ok).requests.length ≤ 1
    ∧ (PlayGround.fetchData v).length = 2 := by
  refine ⟨?_, ?_, ?_, ?_, ?_, ?_, ?_, rfl⟩
  · simp [handleSend, hblock]
  · simp [handleSend, hblock]
  · simp [handleSend, hblock]
  · simp [handleSend, hblock]
  · simp [handleSend, hblock]
  · cases ok <;> rfl
  · cases confirmed <;> cases ok <;> simp [handleDeleteClick]

/-- Witness for C6's amended statement: a send attempted while a previous one
is in flight issues no request and changes nothing. -/
theorem send_guard_and_request_counts_witness :
    sendBlocked { messages := [], inputText := "hi", isLoading := true,
                  currentChatId := some "c1", currentModel := "m" } = true
    ∧ (handleSend
        { messages := [], inputText := "hi", isLoading := true,
          currentChatId := some "c1", currentModel := "m" } "T" "1" "T2" "2"
        SendOutcome.failure).requests = []
    ∧ (PlayGround.fetchData "113514").length = 2 := by
  obtain ⟨h1, h2, h3, h4, h5, h6, h7, h8⟩ :=
    send_guard_and_request_counts
      { messages := [], inputText := "hi", isLoading := true,
        currentChatId := some "c1", currentModel := "m" }
      "T" "1" "T2" "2" "mid" "cid" "113514" SendOutcome.failure true true rfl
  exact ⟨rfl, h1, h8⟩

/-- C3 counterexample: deleting the locally stored error message — whose id is
FAKEID-prefixed — issues a DELETE request that names that temporary id in its
URL, so a FAKEID-prefixed id is sent to the backend. -/
theorem deleteMessage_sends_fakeid_cex :
    (handleDeleteMessageClick
        [{ id := "FAKEID-MESSAGE-FAILED1", sender := "bot", content := "err",
           thinkingProcess := none, timestamp := "t" }]
        "FAKEID-MESSAGE-FAILED1" true).requests
      = [Request.deleteMessage "FAKEID-MESSAGE-FAILED1"]
    ∧ (Request.deleteMessage "FAKEID-MESSAGE-FAILED1").url
      = "http://127.0.0.1:8000/api/message/FAKEID-MESSAGE-FAILED1"
    ∧ ("FAKEID-MESSAGE-FAILED1" : String) = "FAKEID" ++ "-MESSAGE-FAILED1" :=
  ⟨rfl, rfl, rfl⟩

/-- C3 amended: each message-list update (fetch on session change, optimistic
append, reconciliation on response, error append on failure, deletion)
preserves uniqueness of message ids provided the server-returned ids, the
server-assigned ids of a send response, and the generated FAKEID temporary
and error ids are fresh; the send POST carries only the chat id, the typed
text and the model name — never a message id — but message deletion names
the deleted message's id in its DELETE request, so a FAKEID-prefixed id is
sent to the backend when a locally stored message carrying one is deleted. -/
theorem message_ops_preserve_id_nodup
    (jsonParse : String → Except String Json)
    (st : ChatPanelState)
    (timestamp tempSuffix responseTimestamp failSuffix now fsuf chatId mid : String)
    (bot : BotHttpResponse) (msgs : List MessageHttpResponse)
    (hnodup : (st.messages.map Message.id).Nodup)
    (hmsgs : (msgs.map MessageHttpResponse.id).Nodup)
    (htemp : ("FAKEID-TEMP-MESSAGE" ++ tempSuffix) ∉ st.messages.map Message.id)
    (hfail : ("FAKEID-MESSAGE-FAILED" ++ failSuffix) ∉ st.messages.map Message.id)
    (hft : ("FAKEID-MESSAGE-FAILED" ++ failSuffix) ≠ ("FAKEID-TEMP-MESSAGE" ++ tempSuffix))
    (hbu : bot.user_message_id ∉ st.messages.map Message.id)
    (hbb : bot.id ∉ st.messages.map Message.id)
    (hbd : bot.id ≠ bot.user_message_id) :
    ((fetchMessages jsonParse chatId now fsuf (.success msgs)).messages.map Message.id).Nodup
    ∧ ((fetchMessages jsonParse chatId now fsuf .networkError).messages.map Message.id).Nodup
    ∧ ((handleSend st timestamp tempSuffix responseTimestamp failSuffix
        (.success bot)).optimisticMessages.map Message.id).Nodup
    ∧ ((handleSend st timestamp tempSuffix responseTimestamp failSuffix
        (.success bot)).finalMessages.map Message.id).Nodup
    ∧ ((handleSend st timestamp tempSuffix responseTimestamp failSuffix
        .failure).finalMessages.map Message.id).Nodup
    ∧ ((handleDeleteMessageClick st.messages mid true).messages.map Message.id).Nodup
    ∧ (∀ r ∈ (handleSend st timestamp tempSuffix responseTimestamp failSuffix
          (.success bot)).requests,
        r = Request.postMessage (st.currentChatId.getD "") st.inputText st.currentModel)
    ∧ (handleDeleteMessageClick st.messages mid true).requests
        = [Request.deleteMessage mid] := by
  have hfetch :
      ((fetchMessages jsonParse chatId now fsuf (.success msgs)).messages.map Message.id).Nodup := by
    have hids : (msgs.map (convertHttpResponseToMessage jsonParse)).map Message.id
        = msgs.map MessageHttpResponse.id := by
      rw [List.map_map]
      congr 1
    simpa [fetchMessages, hids] using hmsgs
  have hdel :
      ((handleDeleteMessageClick st.messages mid true).messages.map Message.id).Nodup := by
    simp only [handleDeleteMessageClick, if_true]
    exact ((List.filter_sublist st.messages).map Message.id).nodup hnodup
  refine ⟨hfetch, by simp [fetchMessages, fetchFailureMessage], ?_, ?_, ?_, hdel, ?_, rfl⟩
  · -- optimistic list on success
    by_cases hbl : sendBlocked st
    · simpa [handleSend, hbl] using hnodup
    · simp only [handleSend, hbl, Bool.false_eq_true, if_false]
      rw [List.map_append, List.nodup_append]
      refine ⟨hnodup, by simp, ?_⟩
      intro x hx hx2
      simp only [List.map_cons, List.map_nil, List.mem_singleton] at hx2
      subst hx2
      exact htemp hx
  · -- final list on success
    by_cases hbl : sendBlocked st
    · simpa [handleSend, hbl] using hnodup
    · simp only [handleSend, hbl, Bool.false_eq_true, if_false]
      rw [List.map_append, List.nodup_append]
      have hsubA : ((st.messages.filter fun message =>
            message.id != ("FAKEID-TEMP-MESSAGE" ++ tempSuffix)).map Message.id).Sublist
          (st.messages.map Message.id) :=
        (List.filter_sublist st.messages).map Message.id
      refine ⟨hsubA.nodup hnodup, ?_, ?_⟩
      · simp only [List.map_cons, List.map_nil]
        refine List.nodup_cons.mpr ⟨?_, List.nodup_singleton _⟩
        simp only [List.mem_singleton]
        exact Ne.symm hbd
      · intro x hx hx2
        have hxl : x ∈ st.messages.map Message.id := hsubA.subset hx
        simp only [List.map_cons, List.map_nil, List.mem_cons, List.mem_singleton,
          List.not_mem_nil, or_false] at hx2
        rcases hx2 with rfl | rfl
        · exact hbu hxl
        · exact hbb hxl
  · -- final list on failure
    by_cases hbl : sendBlocked st
    · simpa [handleSend, hbl] using hnodup
    · simp only [handleSend, hbl, Bool.false_eq_true, if_false]
      rw [List.append_assoc, List.map_append, List.nodup_append]
      refine ⟨hnodup, ?_, ?_⟩
      · simp only [List.map_append, List.map_cons, List.map_nil, List.singleton_append]
        refine List.nodup_cons.mpr ⟨?_, List.nodup_singleton _⟩
        simp only [List.mem_singleton]
        exact Ne.symm hft
      · intro x hx hx2
        simp only [List.map_append, List.map_cons, List.map_nil, List.singleton_append,
          List.mem_cons, List.mem_singleton, List.not_mem_nil, or_false] at hx2
        rcases hx2 with rfl | rfl
        · exact htemp hx
        · exact hfail hx
  · -- the only request a send issues is the POST of text and model
    by_cases hbl : sendBlocked st
    · simp [handleSend, hbl]
    · intro r hr
      simp only [handleSend, hbl, Bool.false_eq_true, if_false, List.mem_singleton] at hr
      exact hr

/-- Witness for C3's amended statement at concrete fresh ids. -/
theorem message_ops_preserve_id_nodup_witness :
    let m1 : Message :=
      { id := "m1", sender := "user", content := "a", thinkingProcess := none,
        timestamp := "t" }
    let r1 : MessageHttpResponse :=
      { id := "r1", sender := "user", content := "x", thinking_process := none,
        timestamp := "t1" }
    ([m1].map Message.id).Nodup
    ∧ ([r1].map MessageHttpResponse.id).Nodup
    ∧ ("FAKEID-TEMP-MESSAGE1" : String) ∉ [m1].map Message.id
    ∧ ("FAKEID-MESSAGE-FAILED2" : String) ∉ [m1].map Message.id
    ∧ ("FAKEID-MESSAGE-FAILED2" : String) ≠ "FAKEID-TEMP-MESSAGE1"
    ∧ ("u1" : String) ∉ [m1].map Message.id
    ∧ ("b1" : String) ∉ [m1].map Message.id
    ∧ ("b1" : String) ≠ "u1"
    ∧ (handleDeleteMessageClick [m1] "m1" true).requests
      = [Request.deleteMessage "m1"] := by
  intro m1 r1
  have h := message_ops_preserve_id_nodup (fun _ => Except.error "e")
    { messages := [m1], inputText := "hi", isLoading := false,
      currentChatId := some "c", currentModel := "mod" }
    "T" "1" "T2" "2" "N" "3" "c" "m1"
    { id := "b1", user_message_id := "u1", sender := "bot", content := "resp",
      timestamp := "bt", thinking_process := [] }
    [r1]
    (by decide) (by decide) (by decide) (by decide) (by decide) (by decide)
    (by decide) (by decide)
  exact ⟨by decide, by decide, by decide, by decide, by decide, by decide, by decide,
    by decide, h.2.2.2.2.2.2.2⟩

end VideoAgent
